import Mathlib

/-!
Shallow embedding of the Monzo JSON transaction importer
(`monzo_importer.py`) and proofs about its extraction logic.

Modelling conventions:
* Python `Decimal` values are embedded as `ℚ`.  The source only ever
  divides by constants (`/ 100`) or performs one division followed by
  `round(·, 5)`, so exact rational arithmetic coincides with the
  28-significant-digit decimal context on all realistic inputs;
  `round` on a `Decimal` uses banker's rounding (half to even), which is
  embedded as `roundHalfEven`.
* Python exceptions (`KeyError`, `TypeError`, `decimal.DivisionByZero`)
  are embedded with the `Except PyErr` monad: `.error e` means the
  Python code raises.
* A Python `dict` of strings is embedded as an association list
  `Dict := List (String × String)`; `k in d` followed by `d[k]`
  corresponds to one `match` on `d.lookup k`, where the `none` branch
  of a bare subscript raises `KeyError`.
* `datetime.datetime.fromisoformat(s).date()` is embedded as the first
  ten characters of the ISO timestamp (`YYYY-MM-DD`), which is its value
  on every well-formed ISO timestamp.
-/

deriving instance DecidableEq for Except

/-- Python exceptions that the importer can raise. -/
inductive PyErr where
  | keyError (key : String)
  | typeError (msg : String)
  | divisionByZero
deriving DecidableEq, Repr

/-- A Python string-valued `dict`, as an association list. -/
def Dict : Type := List (String × String)

instance : DecidableEq Dict := by unfold Dict; infer_instance

instance : Repr Dict := by unfold Dict; infer_instance

/-- Python `d[k]` on a `dict`: the value when the key is present,
`KeyError` otherwise. -/
def dictGet (d : Dict) (k : String) : Except PyErr String :=
  match List.lookup k d with
  | some v => .ok v
  | none => .error (.keyError k)

/-- The `merchant` object, as accessed by the importer (`merchant["name"]`). -/
structure Merchant where
  name : String
deriving DecidableEq, Repr

/-- One record of the `"transactions"` array of a Monzo JSON file, with
exactly the fields the importer reads.  `Option` marks a field whose key
may be absent (or, for `counterparty` and `merchant`, whose value may be
`null`/falsy); all other fields are required by the importer and modelled
as always present. -/
structure MonzoTransaction where
  id : String
  dedupe_id : String
  description : String
  created : String
  settled : String
  updated : String
  notes : String
  amount : Int
  currency : String
  local_amount : Int
  local_currency : String
  scheme : String
  decline_reason : Option String
  counterparty : Option Dict
  merchant : Option Merchant
  metadata : Option Dict
  account_id : Option String
deriving DecidableEq, Repr

/-- Metadata attached to a ledger entry: `beancount.core.data.new_metadata`
packs the source filename, a line number and the key/value pairs. -/
structure Meta where
  filename : String
  lineno : Nat
  kv : List (String × String)
deriving DecidableEq, Repr

/-- `data.new_metadata(filename, lineno, kvlist)`. -/
def new_metadata (filename : String) (lineno : Nat)
    (kv : List (String × String)) : Meta :=
  ⟨filename, lineno, kv⟩

/-- `beancount.core.amount.Amount`: a number with a currency. -/
structure BAmount where
  number : ℚ
  currency : String
deriving DecidableEq, Repr

/-- Negation of an amount (`-unit` in the source). -/
def BAmount.neg (a : BAmount) : BAmount :=
  ⟨-a.number, a.currency⟩

/-- `beancount.core.data.Posting`, restricted to the fields the importer
ever sets: the `cost` and `meta` arguments are always `None` in the
source and are omitted. -/
structure Posting where
  account : String
  units : BAmount
  price : Option BAmount
  flag : Option String
deriving DecidableEq, Repr

/-- `beancount.core.flags.FLAG_OKAY`. -/
def FLAG_OKAY : String := "*"

/-- `beancount.core.flags.FLAG_WARNING`. -/
def FLAG_WARNING : String := "!"

/-- A ledger entry produced by the importer: `data.Note` or
`data.Transaction`.  The `links` set is modelled as a list (the source
builds either `set()` or a one-element set). -/
inductive Entry where
  | note (meta : Meta) (date : String) (account : String) (comment : String)
  | txn (meta : Meta) (date : String) (flag : String) (payee : Option String)
      (narration : String) (tags : List String) (links : List String)
      (postings : List Posting)
deriving DecidableEq, Repr

/-- `parse_transaction_time`: the date part of an ISO timestamp, i.e.
its first ten characters `YYYY-MM-DD`. -/
def parse_transaction_time (date_str : String) : String :=
  date_str.take 10

/-- Banker's rounding (round half to even) of a rational to an integer;
the behaviour of Python's `round` on `Decimal` values. -/
def roundHalfEven (q : ℚ) : ℤ :=
  let fl : ℤ := ⌊q⌋
  let frac : ℚ := q - fl
  if frac < 1/2 then fl
  else if 1/2 < frac then fl + 1
  else if fl % 2 = 0 then fl else fl + 1

/-- Python `round(q, 5)` on a `Decimal`: round half to even at five
decimal places. -/
def round5 (q : ℚ) : ℚ :=
  (roundHalfEven (q * 100000) : ℚ) / 100000

/-- `get_unit_price(transaction)` (`monzo_importer.py` lines 173-186).
When the local currency differs from the settlement currency and the
local amount is nonzero, the source divides
`D(local_amount) / D(amount)`; if `amount` is zero this division raises
`decimal.DivisionByZero`, hence the `.error` branch. -/
def get_unit_price (t : MonzoTransaction) :
    Except PyErr (Option BAmount) :=
  if t.local_currency ≠ t.currency ∧ t.local_amount ≠ 0 then
    if t.amount = 0 then .error .divisionByZero
    else .ok (some ⟨round5 |(t.local_amount : ℚ) / (t.amount : ℚ)|,
      t.local_currency⟩)
  else .ok none

/-- `get_payee(transaction)` (`monzo_importer.py` lines 189-197).
`if transaction["merchant"]:` tests truthiness (`null` is falsy); the
two `elif "…" in transaction["counterparty"]` tests raise `TypeError`
when the counterparty is `null` or `KeyError` when the key is absent. -/
def get_payee (t : MonzoTransaction) : Except PyErr (Option String) :=
  match t.merchant with
  | some m => .ok (some m.name)
  | none =>
    match t.counterparty with
    | none => .error (.typeError "argument of type NoneType is not iterable")
    | some cp =>
      match List.lookup "prefered_name" cp with
      | some v => .ok (some v)
      | none =>
        match List.lookup "name" cp with
        | some v => .ok (some v)
        | none => .ok none

/-- `get_narration(transaction)` (`monzo_importer.py` lines 200-207). -/
def get_narration (t : MonzoTransaction) : String :=
  if t.notes ≠ "" then t.notes
  else if t.scheme = "uk_retail_pot" then "Internal pot transfer"
  else t.description

/-- Python `"%s" % x` where `x` is an optional string: `None` prints as
`"None"`. -/
def pyStr : Option String → String
  | some s => s
  | none => "None"

/-- Python `s.lower()`: lower-case each character (the source only
compares the result against the ASCII string `"pin change"`). -/
def pyLower (s : String) : String :=
  ⟨s.data.map Char.toLower⟩

/-- The metadata dictionary built at the top of the `extract` loop
(`monzo_importer.py` lines 58-80): six fixed entries, plus either the
counterparty bank-account pair or the counterparty phone pair, depending
on which key is present.  Reading `sort_code`/`user_id` without a
membership test raises `KeyError` when absent. -/
def transaction_metadata (t : MonzoTransaction) (cp : Dict) :
    Except PyErr (List (String × String)) :=
  let base : List (String × String) :=
    [("bank_id", t.id),
     ("bank_dedupe_id", t.dedupe_id),
     ("bank_description", t.description),
     ("bank_created_date", t.created),
     ("bank_settlement_date", t.settled),
     ("bank_updated_date", t.updated)]
  match List.lookup "account_number" cp with
  | some an =>
    match dictGet cp "sort_code" with
    | .ok sc =>
      .ok (base ++ [("counterparty_account_number", an),
                    ("counterparty_sort_code", sc)])
    | .error e => .error e
  | none =>
    match List.lookup "number" cp with
    | some n =>
      match dictGet cp "user_id" with
      | .ok uid =>
        .ok (base ++ [("counterparty_phone_number", n),
                      ("counterparty_user_id", uid)])
      | .error e => .error e
    | none => .ok base

/-- The body of the `for transaction in transactions:` loop of
`Importer.extract` (`monzo_importer.py` lines 56-138): the single ledger
entry appended for one transaction record, or the exception raised.
`importer_account` is `self.importer_account`; `filepath` is the file
whose name goes into the entry metadata. -/
def extractOne (importer_account filepath : String)
    (t : MonzoTransaction) : Except PyErr Entry :=
  match t.counterparty with
  | none => .error (.typeError "argument of type NoneType is not iterable")
  | some cp =>
    match transaction_metadata t cp with
    | .error e => .error e
    | .ok md =>
      let meta := new_metadata filepath 0 md
      if pyLower t.notes = "pin change" then
        .ok (.note meta (parse_transaction_time t.created)
          importer_account "PIN Change")
      else
        match t.decline_reason with
        | some reason =>
          match get_payee t with
          | .error e => .error e
          | .ok payee =>
            .ok (.note meta (parse_transaction_time t.created)
              importer_account
              (pyStr payee ++ " transaction declined with reason " ++ reason))
        | none =>
          let date := parse_transaction_time t.created
          match get_unit_price t with
          | .error e => .error e
          | .ok price =>
            match get_payee t with
            | .error e => .error e
            | .ok payee =>
              let narration := get_narration t
              let unit : BAmount := ⟨(t.amount : ℚ) / 100, t.currency⟩
              let posting1 : Posting := ⟨importer_account, unit, price, none⟩
              if t.scheme = "uk_retail_pot" then
                match t.metadata with
                | none => .error (.keyError "metadata")
                | some pmd =>
                  match List.lookup "pot_id" pmd with
                  | none => .error (.keyError "pot_id")
                  | some pot_id =>
                    .ok (.txn meta date FLAG_OKAY payee narration [] [pot_id]
                      [posting1, ⟨importer_account, unit.neg, none, none⟩])
              else
                .ok (.txn meta date FLAG_OKAY payee narration [] [] [posting1])

/-- The `entries` accumulation of `Importer.extract`: one entry appended
per record, first exception aborting the whole batch. -/
def extractList (importer_account filepath : String) :
    List MonzoTransaction → Except PyErr (List Entry)
  | [] => .ok []
  | t :: ts =>
    match extractOne importer_account filepath t with
    | .error e => .error e
    | .ok entry =>
      match extractList importer_account filepath ts with
      | .error e => .error e
      | .ok rest => .ok (entry :: rest)

/-- An input file as the importer sees it: the MIME type guessed from
its name, and its parsed JSON content.  `transactions = none` models a
JSON document without a top-level `"transactions"` key. -/
structure InputFile where
  mimetype : Option String
  transactions : Option (List MonzoTransaction)
deriving Repr

/-- `get_transactions(filepath)` (`monzo_importer.py` lines 160-170):
the transactions array, or the Python sentinel `False` (modelled as
`none`) when the MIME type is not `application/json` or the
`"transactions"` key is missing. -/
def get_transactions (f : InputFile) :
    Option (List MonzoTransaction) :=
  if f.mimetype ≠ some "application/json" then none
  else f.transactions

/-- `get_account_id(filepath)` (`monzo_importer.py` lines 142-157): the
`account_id` of the first transaction, or the sentinel `False`
(modelled as `none`) on a non-JSON MIME type, a missing
`"transactions"` key (the `KeyError` is caught), an empty array, or a
first record without an `account_id` key. -/
def get_account_id (f : InputFile) : Option String :=
  if f.mimetype ≠ some "application/json" then none
  else
    match f.transactions with
    | none => none
    | some [] => none
    | some (t0 :: _) => t0.account_id

/-- `Importer.identify` (`monzo_importer.py` lines 38-40): equality of
the probed account id with the configured one (the sentinel `False`
never equals a configured string id). -/
def identify (account_id : String) (f : InputFile) : Bool :=
  get_account_id f == some account_id

/-- `Importer.extract` (`monzo_importer.py` lines 52-140).  When
`get_transactions` returns the sentinel `False`, the `for` loop over it
raises `TypeError: bool object is not iterable`. -/
def extract (importer_account filepath : String) (f : InputFile) :
    Except PyErr (List Entry) :=
  match get_transactions f with
  | none => .error (.typeError "bool object is not iterable")
  | some ts => extractList importer_account filepath ts

/-- A well-formed baseline transaction record used to build concrete
test inputs. -/
def baseTx : MonzoTransaction where
  id := "tx_0000000000000001"
  dedupe_id := "dd_0000000000000001"
  description := "COFFEE SHOP LONDON"
  created := "2023-01-15T12:34:56.000Z"
  settled := "2023-01-16T00:00:00.000Z"
  updated := "2023-01-16T01:00:00.000Z"
  notes := ""
  amount := -1234
  currency := "GBP"
  local_amount := -1234
  local_currency := "GBP"
  scheme := "mastercard"
  decline_reason := none
  counterparty := some []
  merchant := some ⟨"Coffee Shop"⟩
  metadata := some []
  account_id := some "acc_1"

/-- A record meeting the price condition of C5 but with a zero
settlement amount, on which the division raises. -/
def tC5bad : MonzoTransaction :=
  { baseTx with
    amount := 0
    local_amount := 1
    local_currency := "EUR" }

/-- A foreign-currency record: 1000 minor units GBP settled, -850 minor
units EUR local. -/
def tC5fx : MonzoTransaction :=
  { baseTx with
    amount := 1000
    local_amount := -850
    local_currency := "EUR" }

/-- A zero-local-amount record with mismatched currencies (an
authorization-only active card check). -/
def tC5zero : MonzoTransaction :=
  { baseTx with
    amount := 0
    local_amount := 0
    local_currency := "EUR" }

/-- A concrete well-formed one-record input file. -/
def fC8 : InputFile :=
  ⟨some "application/json", some [baseTx]⟩

/-- A file whose MIME type is not `application/json`. -/
def fC3 : InputFile :=
  ⟨some "text/plain", some [baseTx]⟩

/-- A JSON file without a top-level `"transactions"` key. -/
def fC3b : InputFile :=
  ⟨some "application/json", none⟩

/-- A PIN-change record whose counterparty key is absent or `null`. -/
def tC10 : MonzoTransaction :=
  { baseTx with
    notes := "PIN Change"
    counterparty := none }

/-- A one-record file containing `tC10`. -/
def fC10 : InputFile :=
  ⟨some "application/json", some [tC10]⟩

/-- The payee-resolution chain exactly as the specification words it
(merchant name if the merchant is present and truthy, else the
counterparty preferred name, else the counterparty name, else null),
for comparison with `get_payee`. -/
def payee_spec_chain (t : MonzoTransaction) (cp : Dict) : Option String :=
  match t.merchant with
  | some m => some m.name
  | none =>
    match List.lookup "prefered_name" cp with
    | some v => some v
    | none => List.lookup "name" cp

/-- The six fixed metadata pairs that `extract` builds for `baseTx`
(and for every record derived from it without touching these fields). -/
def baseKv : List (String × String) :=
  [("bank_id", "tx_0000000000000001"),
   ("bank_dedupe_id", "dd_0000000000000001"),
   ("bank_description", "COFFEE SHOP LONDON"),
   ("bank_created_date", "2023-01-15T12:34:56.000Z"),
   ("bank_settlement_date", "2023-01-16T00:00:00.000Z"),
   ("bank_updated_date", "2023-01-16T01:00:00.000Z")]

/-- A concrete general transaction record (no PIN-change marker, no
decline reason, not a pot transfer). -/
def tC1 : MonzoTransaction := baseTx

/-- A concrete pot-transfer record with a foreign local currency:
1000 minor units GBP settled against -850 minor units EUR. -/
def tC2 : MonzoTransaction :=
  { baseTx with
    merchant := none
    scheme := "uk_retail_pot"
    amount := 1000
    local_amount := -850
    local_currency := "EUR"
    metadata := some [("pot_id", "pot_0000000000000001")] }

/-- The entry the importer produces for `tC2`. -/
def eC2 : Entry :=
  .txn (new_metadata "monzo.json" 0 baseKv) "2023-01-15" FLAG_OKAY none
    "Internal pot transfer" [] ["pot_0000000000000001"]
    [⟨"Assets:Monzo", ⟨((1000 : Int) : ℚ) / 100, "GBP"⟩,
      some ⟨round5 |((-850 : Int) : ℚ) / ((1000 : Int) : ℚ)|, "EUR"⟩, none⟩,
     ⟨"Assets:Monzo", BAmount.neg ⟨((1000 : Int) : ℚ) / 100, "GBP"⟩,
      none, none⟩]

/-- A concrete pot-transfer record in a single currency. -/
def tC4 : MonzoTransaction :=
  { baseTx with
    merchant := none
    scheme := "uk_retail_pot"
    metadata := some [("pot_id", "pot_0000000000000001")] }

/-- The entry the importer produces for `tC4`. -/
def eC4 : Entry :=
  .txn (new_metadata "monzo.json" 0 baseKv) "2023-01-15" FLAG_OKAY none
    "Internal pot transfer" [] ["pot_0000000000000001"]
    [⟨"Assets:Monzo", ⟨((-1234 : Int) : ℚ) / 100, "GBP"⟩, none, none⟩,
     ⟨"Assets:Monzo", BAmount.neg ⟨((-1234 : Int) : ℚ) / 100, "GBP"⟩,
      none, none⟩]

/-- A concrete PIN-change record that also carries a decline reason and
the pot-transfer scheme, to exercise branch precedence. -/
def tC6 : MonzoTransaction :=
  { baseTx with
    notes := "PIN Change"
    decline_reason := some "INSUFFICIENT_FUNDS"
    scheme := "uk_retail_pot"
    metadata := some [("pot_id", "pot_0000000000000001")] }

/-- The entry the importer produces for `tC6`. -/
def eC6 : Entry :=
  .note (new_metadata "monzo.json" 0 baseKv) "2023-01-15" "Assets:Monzo"
    "PIN Change"

/-- A concrete counterparty dictionary carrying both a preferred name
and a name. -/
def cpC9 : Dict :=
  [("prefered_name", "Alice"), ("name", "A. Person")]

/-- A concrete declined record without a merchant, whose payee must be
resolved from the counterparty. -/
def tC9 : MonzoTransaction :=
  { baseTx with
    merchant := none
    counterparty := some cpC9
    decline_reason := some "CARD_BLOCKED" }

/-- The entry the importer produces for `tC9`. -/
def eC9 : Entry :=
  .note (new_metadata "monzo.json" 0 baseKv) "2023-01-15" "Assets:Monzo"
    "Alice transaction declined with reason CARD_BLOCKED"

/-- A concrete PIN-change record (lower-case notes). -/
def tC7a : MonzoTransaction :=
  { baseTx with notes := "pin change" }

/-- A concrete general record. -/
def tC7b : MonzoTransaction := baseTx

/-- A concrete two-record input file. -/
def fC7 : InputFile :=
  ⟨some "application/json", some [tC7a, tC7b]⟩

/-- The entries the importer produces for `fC7`, in order. -/
def esC7 : List Entry :=
  [.note (new_metadata "monzo.json" 0 baseKv) "2023-01-15" "Assets:Monzo"
    "PIN Change",
   .txn (new_metadata "monzo.json" 0 baseKv) "2023-01-15" FLAG_OKAY
    (some "Coffee Shop") "COFFEE SHOP LONDON" [] []
    [⟨"Assets:Monzo", ⟨((-1234 : Int) : ℚ) / 100, "GBP"⟩, none, none⟩]]

/-! ## Theorems -/

/-- Successful extraction of a batch yields one entry per record, in
order: the output has the input's length and the entry at index `i` is
the one `extractOne` produces from the record at index `i`. -/
theorem extractList_ok_spec (a fp : String) :
    ∀ (ts : List MonzoTransaction) (es : List Entry),
      extractList a fp ts = .ok es →
      es.length = ts.length ∧
      ∀ i (hts : i < ts.length) (hes : i < es.length),
        extractOne a fp (ts.get ⟨i, hts⟩) = .ok (es.get ⟨i, hes⟩) := by
  intro ts
  induction ts with
  | nil =>
    intro es h
    simp only [extractList] at h
    cases h
    exact ⟨rfl, fun i hts _ => absurd hts (by simp)⟩
  | cons t ts ih =>
    intro es h
    unfold extractList at h
    cases he : extractOne a fp t with
    | error err => rw [he] at h; cases h
    | ok entry =>
      rw [he] at h
      cases hr : extractList a fp ts with
      | error err => rw [hr] at h; cases h
      | ok rest =>
        rw [hr] at h
        cases h
        obtain ⟨hlen, hidx⟩ := ih rest hr
        refine ⟨by simp [hlen], ?_⟩
        intro i hts hes
        cases i with
        | zero => simpa using he
        | succ j =>
          simpa using hidx j (by simpa using hts) (by simpa using hes)

/-- If a batch succeeds, every record of it was extracted successfully. -/
theorem extractList_ok_mem (a fp : String) (t : MonzoTransaction) :
    ∀ (ts : List MonzoTransaction) (es : List Entry),
      extractList a fp ts = .ok es → t ∈ ts →
      ∃ e, extractOne a fp t = .ok e := by
  intro ts
  induction ts with
  | nil => intro es _ hmem; cases hmem
  | cons t0 ts ih =>
    intro es h hmem
    unfold extractList at h
    cases he : extractOne a fp t0 with
    | error err => rw [he] at h; cases h
    | ok entry =>
      rw [he] at h
      cases hr : extractList a fp ts with
      | error err => rw [hr] at h; cases h
      | ok rest =>
        cases hmem with
        | head => exact ⟨entry, he⟩
        | tail _ hmem => exact ih rest hr hmem

/-- C5 counterexample: the claim says a price is returned whenever the
local currency differs from the settlement currency and the local amount
is nonzero; on a record with settlement amount `0` that condition holds,
yet `get_unit_price` raises `decimal.DivisionByZero` instead of
returning a price. -/
theorem c5_counterexample :
    tC5bad.local_currency ≠ tC5bad.currency ∧
    tC5bad.local_amount ≠ 0 ∧
    get_unit_price tC5bad = .error .divisionByZero := by
  refine ⟨by decide, by decide, by decide⟩

/-- C5 (amended): for every transaction record with nonzero settlement
amount, `get_unit_price` returns a price exactly when the local currency
differs from the settlement currency and the local amount is nonzero,
that price is `round(|local_amount / amount|, 5)` (half to even) in the
local currency, and a zero local amount yields no price; when the
settlement amount is zero and the other condition holds, the division
raises instead. -/
theorem c5_price_condition (t : MonzoTransaction) (ha : t.amount ≠ 0) :
    ((∃ p, get_unit_price t = .ok (some p)) ↔
      (t.local_currency ≠ t.currency ∧ t.local_amount ≠ 0)) ∧
    (∀ p, get_unit_price t = .ok (some p) →
      p = ⟨round5 |(t.local_amount : ℚ) / (t.amount : ℚ)|,
        t.local_currency⟩) ∧
    (t.local_amount = 0 → get_unit_price t = .ok none) := by
  by_cases hc : t.local_currency ≠ t.currency ∧ t.local_amount ≠ 0
  · refine ⟨⟨fun _ => hc, fun _ => ?_⟩, ?_, ?_⟩
    · exact ⟨⟨round5 |(t.local_amount : ℚ) / (t.amount : ℚ)|,
        t.local_currency⟩, by simp [get_unit_price, hc, ha]⟩
    · intro p hp
      simp [get_unit_price, hc, ha] at hp
      exact hp.symm
    · intro h0; exact absurd h0 hc.2
  · refine ⟨⟨?_, fun h => absurd h hc⟩, ?_, ?_⟩
    · rintro ⟨p, hp⟩
      simp [get_unit_price, hc] at hp
    · intro p hp
      simp [get_unit_price, hc] at hp
    · intro _; simp [get_unit_price, hc]

/-- Evaluation of the rounded unit price on the concrete
foreign-exchange record: `round(|-850 / 1000|, 5) = 0.85`. -/
theorem round5_fx :
    round5 |(tC5fx.local_amount : ℚ) / (tC5fx.amount : ℚ)| = (85 : ℚ) / 100 := by
  have h1 : |(tC5fx.local_amount : ℚ) / (tC5fx.amount : ℚ)| = (17 : ℚ) / 20 := by
    show |((-850 : ℤ) : ℚ) / ((1000 : ℤ) : ℚ)| = (17 : ℚ) / 20
    rw [abs_div]
    push_cast
    rw [abs_neg]
    norm_num
  have h2 : ((17 : ℚ) / 20) * 100000 = 85000 := by norm_num
  have h3 : roundHalfEven (85000 : ℚ) = 85000 := by
    unfold roundHalfEven
    norm_num
  unfold round5
  rw [h1, h2, h3]
  norm_num

/-- C5 witness: on the concrete foreign-exchange record
(amount 1000, local amount -850, GBP/EUR) the amended theorem applies
and a price is returned, namely 0.85000 EUR. -/
theorem c5_price_condition_witness :
    tC5fx.amount ≠ 0 ∧
    (∃ p, get_unit_price tC5fx = .ok (some p)) ∧
    get_unit_price tC5fx = .ok (some ⟨(85 : ℚ) / 100, "EUR"⟩) ∧
    get_unit_price tC5zero = .ok none := by
  refine ⟨by decide, ((c5_price_condition tC5fx (by decide)).1).2 (by decide),
    ?_, rfl⟩
  have h : get_unit_price tC5fx =
      .ok (some ⟨round5 |(tC5fx.local_amount : ℚ) / (tC5fx.amount : ℚ)|,
        "EUR"⟩) := rfl
  rw [h, round5_fx]

/-- C8: extraction is a deterministic pure function of the input file:
equal inputs give identical entry sequences, with no hidden state
(in this embedding every probe is a mathematical function of the parsed
file, mirroring the source, which reads only its argument file and no
global state). -/
theorem c8_deterministic (a fp : String) (f g : InputFile) (h : f = g) :
    extract a fp f = extract a fp g := by
  rw [h]

/-- C8 witness: the determinism theorem applied to a concrete file. -/
theorem c8_deterministic_witness :
    extract "Assets:Monzo" "monzo.json" fC8 =
      extract "Assets:Monzo" "monzo.json" fC8 :=
  c8_deterministic "Assets:Monzo" "monzo.json" fC8 fC8 rfl

/-- C3 counterexample: on a file with a non-JSON MIME type the ownership
probe does return the negative sentinel, but the extraction probe does
not return a failure sentinel: it raises a `TypeError` while iterating
the `False` returned by `get_transactions`. -/
theorem c3_counterexample :
    identify "acc_1" fC3 = false ∧
    extract "Assets:Monzo" "statement.txt" fC3 =
      .error (.typeError "bool object is not iterable") := by
  exact ⟨rfl, rfl⟩

/-- C3 (amended): for every input file with a non-JSON MIME type or
without a top-level `"transactions"` key, `identify` returns the
negative sentinel `False` without raising, and `get_transactions`
returns the failure sentinel `False`, but `extract` itself then raises
a `TypeError` iterating that sentinel instead of returning it. -/
theorem c3_probe_failure (aid a fp : String) (f : InputFile)
    (h : f.mimetype ≠ some "application/json" ∨ f.transactions = none) :
    identify aid f = false ∧
    get_transactions f = none ∧
    extract a fp f = .error (.typeError "bool object is not iterable") := by
  have hgt : get_transactions f = none := by
    unfold get_transactions
    rcases h with h | h
    · simp [h]
    · simp [h]
  have hga : get_account_id f = none := by
    unfold get_account_id
    rcases h with h | h
    · simp [h]
    · by_cases hm : f.mimetype = some "application/json"
      · simp [hm, h]
      · simp [hm]
  refine ⟨?_, hgt, ?_⟩
  · simp [identify, hga]
  · unfold extract
    rw [hgt]

/-- C3 witness: the amended theorem applied to a concrete JSON file
without a `"transactions"` key. -/
theorem c3_probe_failure_witness :
    (fC3b.mimetype ≠ some "application/json" ∨ fC3b.transactions = none) ∧
    identify "acc_1" fC3b = false ∧
    extract "Assets:Monzo" "monzo.json" fC3b =
      .error (.typeError "bool object is not iterable") := by
  have h := c3_probe_failure "acc_1" "Assets:Monzo" "monzo.json" fC3b
    (Or.inr rfl)
  exact ⟨Or.inr rfl, h.1, h.2.2⟩

/-- C10: a record whose counterparty is absent or `null` makes the
extraction of that record raise (metadata is built from the counterparty
before any classification, so this applies to PIN-change and declined
records too), and a batch containing such a record never returns an
entry list. -/
theorem c10_counterparty_required (a fp : String) (t : MonzoTransaction)
    (ts : List MonzoTransaction) (f : InputFile) (es : List Entry)
    (hcp : t.counterparty = none) (hmem : t ∈ ts)
    (hf : get_transactions f = some ts) :
    extractOne a fp t =
      .error (.typeError "argument of type NoneType is not iterable") ∧
    extract a fp f ≠ .ok es := by
  have h1 : extractOne a fp t =
      .error (.typeError "argument of type NoneType is not iterable") := by
    unfold extractOne
    rw [hcp]
  refine ⟨h1, ?_⟩
  intro hok
  unfold extract at hok
  rw [hf] at hok
  obtain ⟨e, he⟩ := extractList_ok_mem a fp t ts es hok hmem
  rw [h1] at he
  cases he

/-- C10 witness: the theorem applied to a concrete PIN-change record
with a missing counterparty, inside a concrete one-record file. -/
theorem c10_counterparty_required_witness :
    tC10.counterparty = none ∧
    pyLower tC10.notes = "pin change" ∧
    extractOne "Assets:Monzo" "monzo.json" tC10 =
      .error (.typeError "argument of type NoneType is not iterable") ∧
    extract "Assets:Monzo" "monzo.json" fC10 ≠ .ok [] := by
  have h := c10_counterparty_required "Assets:Monzo" "monzo.json" tC10
    [tC10] fC10 [] rfl (List.mem_singleton.mpr rfl) rfl
  exact ⟨rfl, rfl, h.1, h.2⟩

/-- Inversion of the pot-transfer branch: a successful extraction of a
record with scheme `uk_retail_pot` (that is neither a PIN change nor
declined) is the two-posting transaction built at lines 115-138 of the
source, with the unit price computed before the branch attached to the
first posting. -/
theorem extractOne_pot_inv (a fp : String) (t : MonzoTransaction) (e : Entry)
    (h1 : pyLower t.notes ≠ "pin change")
    (h2 : t.decline_reason = none)
    (h3 : t.scheme = "uk_retail_pot")
    (h : extractOne a fp t = .ok e) :
    ∃ cp md price payee pmd pid,
      t.counterparty = some cp ∧
      transaction_metadata t cp = .ok md ∧
      get_unit_price t = .ok price ∧
      get_payee t = .ok payee ∧
      t.metadata = some pmd ∧
      List.lookup "pot_id" pmd = some pid ∧
      e = .txn (new_metadata fp 0 md) (parse_transaction_time t.created)
        FLAG_OKAY payee (get_narration t) [] [pid]
        [⟨a, ⟨(t.amount : ℚ) / 100, t.currency⟩, price, none⟩,
         ⟨a, BAmount.neg ⟨(t.amount : ℚ) / 100, t.currency⟩, none, none⟩] := by
  unfold extractOne at h
  split at h
  · cases h
  · rename_i cp hcp
    split at h
    · cases h
    · rename_i md hmd
      rw [if_neg h1] at h
      split at h
      · rename_i reason hdr
        rw [h2] at hdr
        cases hdr
      · split at h
        · cases h
        · rename_i price hpr
          split at h
          · cases h
          · rename_i payee hpy
            rw [if_pos h3] at h
            split at h
            · cases h
            · rename_i pmd hpmd
              split at h
              · cases h
              · rename_i pid hpid
                cases h
                exact ⟨cp, md, price, payee, pmd, pid, hcp, hmd, hpr,
                  hpy, hpmd, hpid, rfl⟩

/-- The source payee resolver agrees with the specification's
resolution chain whenever the counterparty is a dictionary. -/
theorem get_payee_chain (t : MonzoTransaction) (cp : Dict)
    (hcp : t.counterparty = some cp) :
    get_payee t = .ok (payee_spec_chain t cp) := by
  cases hm : t.merchant with
  | some m => simp [get_payee, payee_spec_chain, hm]
  | none =>
    cases hl1 : List.lookup "prefered_name" cp with
    | some v => simp [get_payee, payee_spec_chain, hm, hcp, hl1]
    | none =>
      cases hl2 : List.lookup "name" cp with
      | some v => simp [get_payee, payee_spec_chain, hm, hcp, hl1, hl2]
      | none => simp [get_payee, payee_spec_chain, hm, hcp, hl1, hl2]

/-- C1: on a concrete general transaction record the emitted entry is
one Transaction with exactly one posting of amount/100 in the record's
currency — but it carries the flag `*` (`FLAG_OKAY`), not the
human-review flag `!` (`FLAG_WARNING`), and its posting flag is `None`:
the local variable set to `FLAG_WARNING` at line 120 of the source is
never used on this branch, contradicting the comment above it. -/
theorem c1_general_flag :
    extractOne "Assets:Monzo" "monzo.json" tC1 =
      .ok (.txn (new_metadata "monzo.json" 0 baseKv) "2023-01-15" "*"
        (some "Coffee Shop") "COFFEE SHOP LONDON" [] []
        [⟨"Assets:Monzo", ⟨((-1234 : Int) : ℚ) / 100, "GBP"⟩, none, none⟩]) ∧
    FLAG_OKAY = "*" ∧ FLAG_WARNING = "!" ∧ ("*" : String) ≠ FLAG_WARNING :=
  ⟨rfl, rfl, rfl, by decide⟩

/-- C2 counterexample: on a concrete pot-transfer record whose local
currency (EUR) differs from its settlement currency (GBP), the first
posting of the emitted two-posting Transaction carries the price
0.85 EUR — the claim that no price is attached to either posting is
false. -/
theorem c2_counterexample :
    tC2.scheme = "uk_retail_pot" ∧
    tC2.local_currency ≠ tC2.currency ∧
    extractOne "Assets:Monzo" "monzo.json" tC2 = .ok eC2 ∧
    eC2 = .txn (new_metadata "monzo.json" 0 baseKv) "2023-01-15" FLAG_OKAY
      none "Internal pot transfer" [] ["pot_0000000000000001"]
      [⟨"Assets:Monzo", ⟨((1000 : Int) : ℚ) / 100, "GBP"⟩,
        some ⟨(85 : ℚ) / 100, "EUR"⟩, none⟩,
       ⟨"Assets:Monzo", BAmount.neg ⟨((1000 : Int) : ℚ) / 100, "GBP"⟩,
        none, none⟩] := by
  refine ⟨rfl, by decide, rfl, ?_⟩
  have hr : round5 |((-850 : Int) : ℚ) / ((1000 : Int) : ℚ)| =
      (85 : ℚ) / 100 := round5_fx
  unfold eC2
  rw [hr]

/-- C2 (amended): the unit-price calculator is invoked before the
branch on the scheme, so a pot-transfer entry's first posting carries
exactly the price the calculator returns (in particular none whenever
the currencies agree or the local amount is zero), while its second
posting never carries a price. -/
theorem c2_pot_price (a fp : String) (t : MonzoTransaction) (e : Entry)
    (h1 : pyLower t.notes ≠ "pin change")
    (h2 : t.decline_reason = none)
    (h3 : t.scheme = "uk_retail_pot")
    (h : extractOne a fp t = .ok e) :
    ∃ md price payee pid,
      get_unit_price t = .ok price ∧
      (¬(t.local_currency ≠ t.currency ∧ t.local_amount ≠ 0) →
        price = none) ∧
      e = .txn (new_metadata fp 0 md) (parse_transaction_time t.created)
        FLAG_OKAY payee (get_narration t) [] [pid]
        [⟨a, ⟨(t.amount : ℚ) / 100, t.currency⟩, price, none⟩,
         ⟨a, BAmount.neg ⟨(t.amount : ℚ) / 100, t.currency⟩, none, none⟩] := by
  obtain ⟨cp, md, price, payee, pmd, pid, hcp, hmd, hpr, hpy, hpmd, hpid, he⟩ :=
    extractOne_pot_inv a fp t e h1 h2 h3 h
  refine ⟨md, price, payee, pid, hpr, ?_, he⟩
  intro hnc
  unfold get_unit_price at hpr
  rw [if_neg hnc] at hpr
  cases hpr
  rfl

/-- C2 witness: the amended theorem applied to the concrete
single-currency pot-transfer record, whose price is indeed none. -/
theorem c2_pot_price_witness :
    pyLower tC4.notes ≠ "pin change" ∧ tC4.decline_reason = none ∧
    tC4.scheme = "uk_retail_pot" ∧
    (∃ md price payee pid,
      get_unit_price tC4 = .ok price ∧
      (¬(tC4.local_currency ≠ tC4.currency ∧ tC4.local_amount ≠ 0) →
        price = none) ∧
      eC4 = .txn (new_metadata "monzo.json" 0 md)
        (parse_transaction_time tC4.created)
        FLAG_OKAY payee (get_narration tC4) [] [pid]
        [⟨"Assets:Monzo", ⟨(tC4.amount : ℚ) / 100, tC4.currency⟩,
          price, none⟩,
         ⟨"Assets:Monzo",
          BAmount.neg ⟨(tC4.amount : ℚ) / 100, tC4.currency⟩,
          none, none⟩]) :=
  ⟨by decide, rfl, rfl,
    c2_pot_price "Assets:Monzo" "monzo.json" tC4 eC4 (by decide) rfl rfl rfl⟩

/-- C4: a successfully extracted record with scheme `uk_retail_pot`
(that is neither a PIN change nor declined) yields one Transaction with
exactly two postings, both on the configured importer account, whose
amounts sum to zero (the second being the negation of the first), and
whose link set is exactly the pot identifier from the record's metadata
map. -/
theorem c4_pot_transfer (a fp : String) (t : MonzoTransaction) (e : Entry)
    (h1 : pyLower t.notes ≠ "pin change")
    (h2 : t.decline_reason = none)
    (h3 : t.scheme = "uk_retail_pot")
    (h : extractOne a fp t = .ok e) :
    ∃ m d flag payee narr tags p1 p2 pmd pid,
      e = .txn m d flag payee narr tags [pid] [p1, p2] ∧
      p1.account = a ∧ p2.account = a ∧
      p1.units.currency = t.currency ∧ p2.units.currency = t.currency ∧
      p2.units.number = -p1.units.number ∧
      p1.units.number + p2.units.number = 0 ∧
      t.metadata = some pmd ∧ List.lookup "pot_id" pmd = some pid := by
  obtain ⟨cp, md, price, payee, pmd, pid, hcp, hmd, hpr, hpy, hpmd, hpid, he⟩ :=
    extractOne_pot_inv a fp t e h1 h2 h3 h
  subst he
  refine ⟨_, _, _, _, _, _, _, _, pmd, pid, rfl, rfl, rfl, rfl, rfl, rfl,
    ?_, hpmd, hpid⟩
  show (t.amount : ℚ) / 100 + -((t.amount : ℚ) / 100) = 0
  ring

/-- C4 witness: the theorem applied to the concrete pot-transfer record
`tC4`. -/
theorem c4_pot_transfer_witness :
    pyLower tC4.notes ≠ "pin change" ∧ tC4.decline_reason = none ∧
    tC4.scheme = "uk_retail_pot" ∧
    (∃ m d flag payee narr tags p1 p2 pmd pid,
      eC4 = .txn m d flag payee narr tags [pid] [p1, p2] ∧
      p1.account = "Assets:Monzo" ∧ p2.account = "Assets:Monzo" ∧
      p1.units.currency = tC4.currency ∧ p2.units.currency = tC4.currency ∧
      p2.units.number = -p1.units.number ∧
      p1.units.number + p2.units.number = 0 ∧
      tC4.metadata = some pmd ∧ List.lookup "pot_id" pmd = some pid) :=
  ⟨by decide, rfl, rfl,
    c4_pot_transfer "Assets:Monzo" "monzo.json" tC4 eC4 (by decide) rfl rfl rfl⟩

/-- C6: every successfully extracted record whose lower-cased notes
equal "pin change" yields exactly one Note dated at the record's
creation time with the fixed text "PIN Change" and no postings; no
other branch condition is assumed, so this holds even when a decline
reason is present or the scheme is the pot-transfer marker. -/
theorem c6_pin_change_note (a fp : String) (t : MonzoTransaction)
    (e : Entry)
    (hn : pyLower t.notes = "pin change")
    (h : extractOne a fp t = .ok e) :
    ∃ m, e = .note m (parse_transaction_time t.created) a "PIN Change" := by
  unfold extractOne at h
  split at h
  · cases h
  · split at h
    · cases h
    · rw [if_pos hn] at h
      cases h
      exact ⟨_, rfl⟩

/-- C6 witness: the theorem applied to a concrete PIN-change record
that also carries a decline reason and the pot-transfer scheme,
demonstrating the precedence of the PIN-change branch. -/
theorem c6_pin_change_note_witness :
    pyLower tC6.notes = "pin change" ∧
    tC6.decline_reason = some "INSUFFICIENT_FUNDS" ∧
    tC6.scheme = "uk_retail_pot" ∧
    (∃ m, eC6 = .note m (parse_transaction_time tC6.created)
      "Assets:Monzo" "PIN Change") :=
  ⟨rfl, rfl, rfl,
    c6_pin_change_note "Assets:Monzo" "monzo.json" tC6 eC6 rfl rfl⟩

/-- C7: whenever extraction of a file succeeds, the entry list has
exactly the length of the file's transaction list, and the entry at
output index `i` is the one produced from the record at input index
`i`. -/
theorem c7_order_preservation (a fp : String) (f : InputFile)
    (es : List Entry) (h : extract a fp f = .ok es) :
    ∃ ts, get_transactions f = some ts ∧ es.length = ts.length ∧
      ∀ i (hts : i < ts.length) (hes : i < es.length),
        extractOne a fp (ts.get ⟨i, hts⟩) = .ok (es.get ⟨i, hes⟩) := by
  unfold extract at h
  cases hgt : get_transactions f with
  | none => rw [hgt] at h; cases h
  | some ts =>
    rw [hgt] at h
    exact ⟨ts, rfl, extractList_ok_spec a fp ts es h⟩

/-- C7 witness: the theorem applied to a concrete two-record file whose
extraction yields exactly two entries in input order. -/
theorem c7_order_preservation_witness :
    extract "Assets:Monzo" "monzo.json" fC7 = .ok esC7 ∧
    (∃ ts, get_transactions fC7 = some ts ∧ esC7.length = ts.length ∧
      ∀ i (hts : i < ts.length) (hes : i < esC7.length),
        extractOne "Assets:Monzo" "monzo.json" (ts.get ⟨i, hts⟩) =
          .ok (esC7.get ⟨i, hes⟩)) :=
  ⟨rfl, c7_order_preservation "Assets:Monzo" "monzo.json" fC7 esC7 rfl⟩

/-- C9: for every record whose counterparty is a dictionary, the payee
resolver returns the merchant's name when the merchant is present and
truthy, else the counterparty's preferred name when present, else the
counterparty's name when present, else null; and the declined-record
branch builds its note text from exactly this resolved payee. -/
theorem c9_payee_resolution (a fp : String) (t : MonzoTransaction)
    (cp : Dict) (hcp : t.counterparty = some cp) :
    get_payee t = .ok (payee_spec_chain t cp) ∧
    ∀ r e, pyLower t.notes ≠ "pin change" → t.decline_reason = some r →
      extractOne a fp t = .ok e →
      ∃ m, e = .note m (parse_transaction_time t.created) a
        (pyStr (payee_spec_chain t cp) ++
          " transaction declined with reason " ++ r) := by
  refine ⟨get_payee_chain t cp hcp, ?_⟩
  intro r e hn hdr h
  unfold extractOne at h
  split at h
  · rename_i hcp2
    rw [hcp] at hcp2
    cases hcp2
  · rename_i cp2 hcp2
    rw [hcp] at hcp2
    cases hcp2
    split at h
    · cases h
    · rename_i md hmd
      rw [if_neg hn] at h
      split at h
      · rename_i reason hdr2
        rw [hdr] at hdr2
        cases hdr2
        split at h
        · cases h
        · rename_i payee hpy
          rw [get_payee_chain t cp hcp] at hpy
          cases hpy
          cases h
          exact ⟨_, rfl⟩
      · rename_i hdr2
        rw [hdr] at hdr2
        cases hdr2

/-- C9 witness: the theorem applied to a concrete declined record with
no merchant, whose payee resolves to the counterparty's preferred
name. -/
theorem c9_payee_resolution_witness :
    tC9.counterparty = some cpC9 ∧
    get_payee tC9 = .ok (some "Alice") ∧
    pyLower tC9.notes ≠ "pin change" ∧
    tC9.decline_reason = some "CARD_BLOCKED" ∧
    (∃ m, eC9 = .note m (parse_transaction_time tC9.created)
      "Assets:Monzo" "Alice transaction declined with reason CARD_BLOCKED") := by
  have h := c9_payee_resolution "Assets:Monzo" "monzo.json" tC9 cpC9 rfl
  refine ⟨rfl, ?_, by decide, rfl, ?_⟩
  · rw [h.1]
    rfl
  · exact h.2 "CARD_BLOCKED" eC9 (by decide) rfl rfl
